import Mathlib

/-!
Verification of the VisionOne car-hire backend against its specification.

This file gives a shallow embedding, in Lean 4, of the request-handling
logic of the backend (the booking validator and controller, the contact
controller, the document packager and the notification joins), translated
from the TypeScript sources:

* `src/controllers/contactController.ts`
* `src/controllers/bookingController.ts`
* `src/routes/bookings.ts`

Modelling conventions:

* JavaScript string fields that may be absent are `Option String`;
  JS truthiness of such a field (absent and `""` are falsy) is `truthyStr`.
* `req.body.termsAccepted` may arrive as a boolean or as a string
  (multipart forms); it is modelled by `TermsVal`.
* `Date.parse` is modelled on ISO calendar-date strings `YYYY-MM-DD`;
  the returned value `y*10000 + m*100 + d` is order-isomorphic to the JS
  time value on valid dates, and `none` models `NaN`.  A JS `<=`
  comparison (false whenever an operand is `NaN`) is `jsLe`.
* The filesystem and the mail transport are external collaborators; they
  are modelled by explicit environments (`FileSys`, promise outcomes).
* Nondeterministic inputs (generated ids, the current time) are passed in
  explicitly as environment records.
-/

namespace VisionOne

/-! ## JavaScript value helpers -/

/-- Emptiness of a string, via its character list (kernel-reducible). -/
def strIsEmpty (s : String) : Bool :=
  s.toList.isEmpty

/-- ASCII lower-casing of a string, character by character (model of JS
`String.prototype.toLowerCase` on the ASCII range). -/
def strToLower (s : String) : String :=
  String.mk (s.toList.map Char.toLower)

/-- Characters of a string with leading and trailing whitespace removed
(model of JS `String.prototype.trim`). -/
def trimChars (cs : List Char) : List Char :=
  ((cs.dropWhile Char.isWhitespace).reverse.dropWhile Char.isWhitespace).reverse

/-- Model of JS `s.trim()`. -/
def strTrim (s : String) : String :=
  String.mk (trimChars s.toList)

/-- Split a character list on a separator character (model of splitting a
JS string on a one-character separator; always returns at least one
chunk). -/
def splitOnChar (sep : Char) : List Char → List (List Char)
  | [] => [[]]
  | c :: rest =>
    if c == sep then
      [] :: splitOnChar sep rest
    else
      match splitOnChar sep rest with
      | [] => [[c]]
      | h :: t => (c :: h) :: t

/-- Truthiness of an optional JS string field: absent (`undefined`) and the
empty string are falsy, every other string is truthy. -/
def truthyStr : Option String → Bool
  | none => false
  | some s => !strIsEmpty s

/-- Value of `req.body.termsAccepted`: absent, a boolean, or a string. -/
inductive TermsVal where
  | undef
  | ofBool (b : Bool)
  | ofStr (s : String)
deriving DecidableEq, Repr

/-- JS truthiness of a `TermsVal`. -/
def truthyTerms : TermsVal → Bool
  | .undef => false
  | .ofBool b => b
  | .ofStr s => !strIsEmpty s

/-- Strict equality `v === 'lit'` of a `TermsVal` against a string literal. -/
def termsIsStr : TermsVal → String → Bool
  | .ofStr s, t => s == t
  | _, _ => false

/-- Coercion `v === 'true' || v === true` used by both the booking
validator (normalization) and the booking controller. -/
def coerceTerms : TermsVal → Bool
  | .undef => false
  | .ofBool b => b
  | .ofStr s => s == "true"

/-- Substring test on character lists: `needle` occurs contiguously in the
list.  Models `String.prototype.includes`. -/
def listContains (needle : List Char) : List Char → Bool
  | [] => needle.isEmpty
  | c :: rest => List.isPrefixOf needle (c :: rest) || listContains needle rest

/-- Model of JS `text.includes(kw)`. -/
def strIncludes (text kw : String) : Bool :=
  listContains kw.toList text.toList

/-- Character class `[^\s@]` of the email regex. -/
def emailChar (c : Char) : Bool :=
  !c.isWhitespace && c != '@'

/-- The domain part must contain a `'.'` that is neither its first nor its
last character (so that `[^\s@]+\.[^\s@]+` can match it). -/
def hasInnerDot (cs : List Char) : Bool :=
  (List.range cs.length).any fun i =>
    decide (0 < i) && decide (i + 1 < cs.length) && (cs.getD i ' ' == '.')

/-- Executable model of the JS regex test
`/^[^\s@]+@[^\s@]+\.[^\s@]+$/.test s` used for email validation in both
the booking validator and the contact controller: exactly one `@`, a
nonempty `[^\s@]`-only part on either side, and an inner dot in the
domain part. -/
def emailRegexTest (s : String) : Bool :=
  match splitOnChar '@' s.toList with
  | [lpart, dpart] =>
      !lpart.isEmpty && lpart.all emailChar &&
      !dpart.isEmpty && dpart.all emailChar && hasInnerDot dpart
  | _ => false

/-- Leap-year rule of the proleptic Gregorian calendar (as used by JS
`Date` for ISO date strings). -/
def isLeapYear (y : Nat) : Bool :=
  (y % 4 == 0 && y % 100 != 0) || y % 400 == 0

/-- Days in a month, for validating an ISO date string. -/
def daysInMonth (y m : Nat) : Nat :=
  if m == 2 then (if isLeapYear y then 29 else 28)
  else if m == 4 || m == 6 || m == 9 || m == 11 then 30
  else 31

/-- Decimal value of a nonempty all-digit character list, `none`
otherwise. -/
def digitsToNat? (cs : List Char) : Option Nat :=
  if cs.isEmpty then none
  else
    cs.foldl
      (fun acc c =>
        match acc with
        | none => none
        | some n => if c.isDigit then some (n * 10 + (c.toNat - 48)) else none)
      (some 0)

/-- Model of JS `Date.parse`, restricted to ISO calendar-date strings
`YYYY-MM-DD`.  Returns `none` for `NaN` (malformed string or invalid
calendar date); on valid dates it returns `y*10000 + m*100 + d`, which is
order-isomorphic to the JS millisecond time value. -/
def dateParse (s : String) : Option Nat :=
  match splitOnChar '-' s.toList with
  | [ys, ms, ds] =>
      if ys.length == 4 && ms.length == 2 && ds.length == 2 then
        match digitsToNat? ys, digitsToNat? ms, digitsToNat? ds with
        | some y, some m, some d =>
            if 1 ≤ m && m ≤ 12 && 1 ≤ d && d ≤ daysInMonth y m then
              some (y * 10000 + m * 100 + d)
            else none
        | _, _, _ => none
      else none
  | _ => none

/-- JS `<=` on (possibly `NaN`) parse results: false whenever either
operand is `NaN`. -/
def jsLe : Option Nat → Option Nat → Bool
  | some a, some b => a ≤ b
  | _, _ => false

/-- POSIX `path.basename`: the last `/`-separated component. -/
def pathBasename (p : String) : String :=
  String.mk ((splitOnChar '/' p.toList).getLastD p.toList)

/-! ## Contact inquiries: data model (`contactController.ts`) -/

/-- The `priority` union type of `ContactData`. -/
inductive Priority where
  | low
  | normal
  | high
  | urgent
deriving DecidableEq, Repr

/-- String form of a priority (as stored in the JS record). -/
def priorityStr : Priority → String
  | .low => "low"
  | .normal => "normal"
  | .high => "high"
  | .urgent => "urgent"

/-- The `priorityOrder` rank table of `getContactInquiries`:
`{ urgent: 0, high: 1, normal: 2, low: 3 }`. -/
def priorityRank : Priority → Nat
  | .urgent => 0
  | .high => 1
  | .normal => 2
  | .low => 3

/-- A stored contact inquiry (`ContactData`).  `submissionDate` holds the
time value of the ISO timestamp (order-isomorphic model of the string). -/
structure ContactData where
  id : String
  name : String
  email : String
  phone : String
  company : String
  subject : String
  message : String
  department : String
  submissionDate : Nat
  status : String
  priority : Priority
  assignedTo : String
deriving DecidableEq, Repr

/-- The `urgentKeywords` list of `determinePriority`. -/
def urgentKeywords : List String :=
  ["urgent", "emergency", "immediately", "asap", "critical", "broken down",
   "accident", "stranded"]

/-- The `highKeywords` list of `determinePriority`. -/
def highKeywords : List String :=
  ["important", "priority", "corporate", "business", "enterprise",
   "partnership", "executive", "ceo"]

/-- The scanned text of `determinePriority`:
`(subject + ' ' + message).toLowerCase()`. -/
def contactText (subject message : String) : String :=
  strToLower (subject ++ " " ++ message)

/-- The urgent-keyword test performed by `determinePriority` on the
lower-cased concatenation of subject and message. -/
def hasUrgentKeyword (subject message : String) : Bool :=
  urgentKeywords.any fun kw => strIncludes (contactText subject message) kw

/-- The high-keyword test performed by `determinePriority`. -/
def hasHighKeyword (subject message : String) : Bool :=
  highKeywords.any fun kw => strIncludes (contactText subject message) kw

/-- Function `determinePriority(subject, message, department)` from
`contactController.ts`. -/
def determinePriority (subject message department : String) : Priority :=
  if hasUrgentKeyword subject message || department == "support" then
    .urgent
  else if hasHighKeyword subject message || department == "corporate" then
    .high
  else
    .normal

/-- Function `getAssigneeForDepartment` (static lookup with `'executive-team'`
fallback). -/
def getAssigneeForDepartment (department : String) : String :=
  if department == "general" then "executive-team"
  else if department == "booking" then "reservations-team"
  else if department == "corporate" then "corporate-team"
  else if department == "support" then "concierge-team"
  else "executive-team"

/-- Function `getEstimatedResponseTime` (total map over the priority union). -/
def getEstimatedResponseTime : Priority → String
  | .urgent => "Within 30 minutes"
  | .high => "Within 2 hours"
  | .normal => "Within 4 business hours"
  | .low => "Within 24 hours"

/-- Membership of a department in `departmentConfig`. -/
def departmentConfigHas (d : String) : Bool :=
  d == "general" || d == "booking" || d == "corporate" || d == "support"

/-- Request body of `POST /api/contact` (all fields possibly absent). -/
structure ContactBody where
  name : Option String
  email : Option String
  phone : Option String
  company : Option String
  subject : Option String
  message : Option String
  department : Option String
deriving DecidableEq, Repr

/-- Environment inputs of `createContactInquiry`: the generated id and
the current time value (`new Date().toISOString()`). -/
structure ContactEnv where
  newId : String
  now : Nat
deriving DecidableEq, Repr

/-- Shape of the HTTP response of `createContactInquiry`: a 400 with a
single `error` string, or a 201 carrying the created inquiry. -/
inductive ContactResp where
  | badRequest (error : String)
  | created (inq : ContactData)
deriving DecidableEq, Repr

/-- The field-tagged error entries carried by a response of the contact
endpoint.  The 400 body of `createContactInquiry` is `{ error: <string> }`
with no per-field entries, and the 201 body carries none either, so this
is empty for every response shape the endpoint produces. -/
def contactRespFieldErrors : ContactResp → List (String × String)
  | _ => []

/-- Function `createContactInquiry` from `contactController.ts`, as a function of
the request body, environment and store.  Returns the response and the
new store (`contactInquiries`). -/
def createContactInquiry (env : ContactEnv) (b : ContactBody)
    (store : List ContactData) : ContactResp × List ContactData :=
  if !truthyStr b.name || !truthyStr b.email || !truthyStr b.subject ||
      !truthyStr b.message || !truthyStr b.department then
    (.badRequest "Missing required fields: name, email, subject, message, and department are required",
     store)
  else if !emailRegexTest (b.email.getD "") then
    (.badRequest "Invalid email format", store)
  else if !departmentConfigHas (b.department.getD "") then
    (.badRequest "Invalid department specified. Valid departments: general, booking, corporate, support",
     store)
  else
    let priority := determinePriority (b.subject.getD "") (b.message.getD "")
      (b.department.getD "")
    let inq : ContactData :=
      { id := env.newId
        name := b.name.getD ""
        email := b.email.getD ""
        phone := b.phone.getD ""
        company := b.company.getD ""
        subject := b.subject.getD ""
        message := b.message.getD ""
        department := b.department.getD ""
        submissionDate := env.now
        status := "new"
        priority := priority
        assignedTo := getAssigneeForDepartment (b.department.getD "") }
    (.created inq, store ++ [inq])

/-! ## Claim C1: priority derivation -/

/-- Every branch of `determinePriority` returns `urgent`, `high` or
`normal`; it never returns `low`. -/
theorem determinePriority_ne_low (s m d : String) :
    determinePriority s m d ≠ .low := by
  unfold determinePriority
  split
  · simp
  · split <;> simp

/-- C1: for every contact inquiry creation the derived priority satisfies:
an urgent keyword in the lower-cased subject+message forces `urgent`
regardless of department; department `support` forces `urgent` as well;
and department `corporate` forces at least `high` (rank at most the rank
of `high`) when no urgent keyword is present. -/
theorem C1_priority_derivation (s m d : String) :
    (hasUrgentKeyword s m = true → determinePriority s m d = .urgent)
    ∧ (d = "support" → determinePriority s m d = .urgent)
    ∧ (d = "corporate" → hasUrgentKeyword s m = false →
        priorityRank (determinePriority s m d) ≤ priorityRank .high) := by
  refine ⟨?_, ?_, ?_⟩
  · intro h
    simp [determinePriority, h]
  · intro h
    subst h
    simp [determinePriority]
  · intro hd h
    subst hd
    simp [determinePriority, h, priorityRank]

/-- Witness for C1 at concrete inputs: a shouted urgent keyword wins in
department `general`; `support` wins without keywords; `corporate`
without urgent keywords is at most `high`. -/
theorem C1_priority_derivation_witness :
    determinePriority "URGENT: car broke" "please help" "general" = .urgent
    ∧ determinePriority "hello" "hi" "support" = .urgent
    ∧ priorityRank (determinePriority "hello" "hi" "corporate")
        ≤ priorityRank .high :=
  ⟨(C1_priority_derivation "URGENT: car broke" "please help" "general").1 (by decide),
   (C1_priority_derivation "hello" "hi" "support").2.1 rfl,
   (C1_priority_derivation "hello" "hi" "corporate").2.2 rfl (by decide)⟩

/-! ## Claim C10: the `low` priority is unreachable from inquiry creation -/

/-- C10: `determinePriority` never returns `low` (so its estimated
response time is never the `low` one), and every inquiry added to the
store by `createContactInquiry` has a non-`low` priority, making the
`'Within 24 hours'` branch of `getEstimatedResponseTime` unreachable from
inquiry creation. -/
theorem C10_low_priority_unreachable :
    (∀ s m d : String, determinePriority s m d ≠ .low
      ∧ getEstimatedResponseTime (determinePriority s m d) ≠ "Within 24 hours")
    ∧ ∀ (env : ContactEnv) (b : ContactBody) (store : List ContactData)
        (resp : ContactResp) (store' : List ContactData),
        createContactInquiry env b store = (resp, store') →
        ∀ inq ∈ store', inq ∈ store ∨
          (inq.priority ≠ .low
            ∧ getEstimatedResponseTime inq.priority ≠ "Within 24 hours") := by
  have hne : ∀ s m d : String, determinePriority s m d ≠ .low :=
    determinePriority_ne_low
  have hresp : ∀ s m d : String,
      getEstimatedResponseTime (determinePriority s m d) ≠ "Within 24 hours" := by
    intro s m d
    cases hp : determinePriority s m d with
    | low => exact absurd hp (hne s m d)
    | normal => simp [getEstimatedResponseTime]
    | high => simp [getEstimatedResponseTime]
    | urgent => simp [getEstimatedResponseTime]
  refine ⟨fun s m d => ⟨hne s m d, hresp s m d⟩, ?_⟩
  intro env b store resp store' h inq hmem
  unfold createContactInquiry at h
  split at h
  · cases h; exact Or.inl hmem
  · split at h
    · cases h; exact Or.inl hmem
    · split at h
      · cases h; exact Or.inl hmem
      · cases h
        rcases List.mem_append.mp hmem with hl | hr
        · exact Or.inl hl
        · refine Or.inr ?_
          have : inq.priority = determinePriority (b.subject.getD "")
              (b.message.getD "") (b.department.getD "") := by
            simp at hr
            rw [hr]
          rw [this]
          exact ⟨hne _ _ _, hresp _ _ _⟩

/-- Environment used by the C10 witness. -/
def c10Env : ContactEnv := ⟨"CONTACT-1", 100⟩

/-- Request body used by the C10 witness. -/
def c10Body : ContactBody :=
  ⟨some "Jane", some "jane@x.com", none, none,
   some "Accident on highway", some "need help", some "general"⟩

/-- The inquiry `createContactInquiry` creates at `c10Env`/`c10Body`
(keyword `accident` makes it urgent). -/
def c10Inq : ContactData :=
  ⟨"CONTACT-1", "Jane", "jane@x.com", "", "", "Accident on highway",
   "need help", "general", 100, "new", .urgent, "executive-team"⟩

/-- Witness for C10: the concrete inquiry created from `c10Body` is in
the new store and has a non-`low` priority. -/
theorem C10_low_priority_unreachable_witness :
    c10Inq ∈ ([] : List ContactData) ∨
      (c10Inq.priority ≠ .low
        ∧ getEstimatedResponseTime c10Inq.priority ≠ "Within 24 hours") :=
  C10_low_priority_unreachable.2 c10Env c10Body []
    (createContactInquiry c10Env c10Body []).1
    (createContactInquiry c10Env c10Body []).2 rfl c10Inq (by decide)

/-! ## Bookings: data model (`bookingController.ts`, `routes/bookings.ts`) -/

/-- The `idType` union type of `BookingData`:
`'id' | 'passport' | 'national_id'`. -/
inductive IdType where
  | id
  | passport
  | national_id
deriving DecidableEq, Repr

/-- Function `normalizeIdType` from `bookingController.ts`: the three recognized
strings map to themselves (the `validTypes.includes` branch), the
alternate spelling `'national-id'` maps to `national_id`, and everything
else silently falls back to `'id'`. -/
def normalizeIdType (idType : String) : IdType :=
  if idType == "id" then .id
  else if idType == "passport" then .passport
  else if idType == "national_id" then .national_id
  else if idType == "national-id" then .national_id
  else .id

/-- Request body of `POST /api/bookings` (text fields of the multipart
form; each possibly absent). -/
structure BookingBody where
  customerName : Option String
  email : Option String
  phone : Option String
  pickupDate : Option String
  returnDate : Option String
  carType : Option String
  pickupLocation : Option String
  dropoffLocation : Option String
  additionalInfo : Option String
  idNumber : Option String
  idType : Option String
  termsAccepted : TermsVal
deriving DecidableEq, Repr

/-- A field-level validation error `{ field, message }`. -/
structure FieldError where
  field : String
  message : String
deriving DecidableEq, Repr

/-- Presence test `!x?.trim()` used by the validator on plain string
fields: the field is missing when absent or whitespace-only. -/
def trimmedPresent (o : Option String) : Bool :=
  match o with
  | none => false
  | some s => !strIsEmpty (strTrim s)

/-- The error list built by the `validateBooking` middleware of
`routes/bookings.ts`, with the checks in source order. -/
def validateBookingErrors (b : BookingBody) : List FieldError :=
  (if !trimmedPresent b.customerName then
    [⟨"customerName", "Name is required"⟩] else []) ++
  (if !truthyStr b.email || !emailRegexTest (b.email.getD "") then
    [⟨"email", "Valid email is required"⟩] else []) ++
  (if !trimmedPresent b.phone then
    [⟨"phone", "Phone number is required"⟩] else []) ++
  (if !truthyStr b.pickupDate || (dateParse (b.pickupDate.getD "")).isNone then
    [⟨"pickupDate", "Valid pickup date is required"⟩] else []) ++
  (if !truthyStr b.returnDate || (dateParse (b.returnDate.getD "")).isNone then
    [⟨"returnDate", "Valid return date is required"⟩] else []) ++
  (if !trimmedPresent b.carType then
    [⟨"carType", "Car type is required"⟩] else []) ++
  (if !trimmedPresent b.pickupLocation then
    [⟨"pickupLocation", "Pickup location is required"⟩] else []) ++
  (if !trimmedPresent b.idNumber then
    [⟨"idNumber", "ID/Passport number is required"⟩] else []) ++
  (if !truthyStr b.idType ||
      !(["id", "passport"].contains (b.idType.getD "")) then
    [⟨"idType", "Valid ID type is required (id or passport)"⟩] else []) ++
  (if !truthyTerms b.termsAccepted || termsIsStr b.termsAccepted "false" then
    [⟨"termsAccepted", "Terms and conditions must be accepted"⟩] else []) ++
  (if truthyStr b.pickupDate && truthyStr b.returnDate &&
      jsLe (dateParse (b.returnDate.getD "")) (dateParse (b.pickupDate.getD "")) then
    [⟨"returnDate", "Return date must be after pickup date"⟩] else [])

/-- The normalization `validateBooking` applies to `req.body` when no
error was found: trimming, email lower-casing, consent coercion, and
trimming of the optional fields when present. -/
def normalizeBookingBody (b : BookingBody) : BookingBody :=
  { customerName := some (strTrim (b.customerName.getD ""))
    email := some (strToLower (strTrim (b.email.getD "")))
    phone := some (strTrim (b.phone.getD ""))
    pickupDate := b.pickupDate
    returnDate := b.returnDate
    carType := some (strTrim (b.carType.getD ""))
    pickupLocation := some (strTrim (b.pickupLocation.getD ""))
    dropoffLocation :=
      if truthyStr b.dropoffLocation then
        some (strTrim (b.dropoffLocation.getD ""))
      else b.dropoffLocation
    additionalInfo :=
      if truthyStr b.additionalInfo then
        some (strTrim (b.additionalInfo.getD ""))
      else b.additionalInfo
    idNumber := some (strTrim (b.idNumber.getD ""))
    idType := b.idType
    termsAccepted := .ofBool (coerceTerms b.termsAccepted) }

/-- The `validateBooking` middleware: a 400 with the full error list, or
the normalized body handed to the next handler. -/
def validateBooking (b : BookingBody) : Except (List FieldError) BookingBody :=
  let errors := validateBookingErrors b
  if errors.isEmpty then .ok (normalizeBookingBody b) else .error errors

/-- Dynamic access `req.body[field]` for the required-field names checked
by `createBooking`. -/
def bookingField (b : BookingBody) : String → Option String
  | "customerName" => b.customerName
  | "email" => b.email
  | "phone" => b.phone
  | "pickupDate" => b.pickupDate
  | "returnDate" => b.returnDate
  | "carType" => b.carType
  | "pickupLocation" => b.pickupLocation
  | "idNumber" => b.idNumber
  | "idType" => b.idType
  | _ => none

/-- The `requiredFields` list of `createBooking`. -/
def requiredFields : List String :=
  ["customerName", "email", "phone", "pickupDate", "returnDate",
   "carType", "pickupLocation", "idNumber", "idType"]

/-- The list `requiredFields.filter(field => !req.body[field])`. -/
def missingRequiredFields (b : BookingBody) : List String :=
  requiredFields.filter fun f => !truthyStr (bookingField b f)

/-- File paths recorded by the multer upload middleware. -/
structure UploadedFiles where
  idDocument : Option String
  drivingLicense : Option String
  depositProof : Option String
deriving DecidableEq, Repr

/-- A stored booking record (`BookingData`). -/
structure BookingData where
  id : String
  customerName : String
  email : String
  phone : String
  pickupDate : String
  returnDate : String
  carType : String
  pickupLocation : String
  dropoffLocation : Option String
  additionalInfo : Option String
  idNumber : String
  idType : IdType
  termsAccepted : Bool
  bookingDate : String
  status : String
  idDocumentPath : Option String
  drivingLicensePath : Option String
  depositProofPath : Option String
deriving DecidableEq, Repr

/-- Environment inputs of `createBooking`: the last eight digits of
`Date.now()` (the generated id is `"V1-" + suffix`) and the current ISO
timestamp. -/
structure BookingEnv where
  tsSuffix : String
  nowISO : String
deriving DecidableEq, Repr

/-- Shape of the HTTP response of the `createBooking` controller. -/
inductive BookingResp where
  | badRequest (error : String)
  | created (b : BookingData)
deriving DecidableEq, Repr

/-- Function `createBooking` from `bookingController.ts` (the synchronous part:
required-field check, consent coercion, record construction and store
append; the deferred email phase is modelled separately). -/
def createBooking (env : BookingEnv) (b : BookingBody) (files : UploadedFiles)
    (store : List BookingData) : BookingResp × List BookingData :=
  let missing := missingRequiredFields b
  if !missing.isEmpty then
    (.badRequest ("Missing required fields: " ++ String.intercalate ", " missing),
     store)
  else
    let termsAccepted := coerceTerms b.termsAccepted
    if !termsAccepted then
      (.badRequest "Terms and conditions must be accepted", store)
    else
      let booking : BookingData :=
        { id := "V1-" ++ env.tsSuffix
          customerName := b.customerName.getD ""
          email := b.email.getD ""
          phone := b.phone.getD ""
          pickupDate := b.pickupDate.getD ""
          returnDate := b.returnDate.getD ""
          carType := b.carType.getD ""
          pickupLocation := b.pickupLocation.getD ""
          dropoffLocation :=
            if truthyStr b.dropoffLocation then b.dropoffLocation else none
          additionalInfo :=
            if truthyStr b.additionalInfo then b.additionalInfo else none
          idNumber := b.idNumber.getD ""
          idType := normalizeIdType (b.idType.getD "")
          termsAccepted := termsAccepted
          bookingDate := env.nowISO
          status := "confirmed"
          idDocumentPath := files.idDocument
          drivingLicensePath := files.drivingLicense
          depositProofPath := files.depositProof }
      (.created booking, store ++ [booking])

/-- Result of `POST /api/bookings` through the middleware chain
(`upload, validateBooking, createBooking`). -/
inductive BookingHttpResult where
  | validationFailed (errors : List FieldError)
  | controllerResp (r : BookingResp)
deriving DecidableEq, Repr

/-- The route handler of `POST /api/bookings`: `validateBooking` either
answers 400 itself or passes the normalized body to `createBooking`. -/
def handleBookingPost (env : BookingEnv) (b : BookingBody)
    (files : UploadedFiles) (store : List BookingData) :
    BookingHttpResult × List BookingData :=
  match validateBooking b with
  | .error errs => (.validationFailed errs, store)
  | .ok nb =>
      let r := createBooking env nb files store
      (.controllerResp r.1, r.2)

/-- Whether a booking-route result is a 400 response. -/
def responded400 : BookingHttpResult → Bool
  | .validationFailed _ => true
  | .controllerResp (.badRequest _) => true
  | .controllerResp (.created _) => false

/-! ## Shared lemmas about the booking validator -/

/-- Whether the validator's error list carries an entry for field `f`. -/
def hasFieldError (b : BookingBody) (f : String) : Bool :=
  (validateBookingErrors b).any fun e => e.field == f

/-- Scanning a conditional singleton error block. -/
theorem any_if_singleton (c : Bool) (e : FieldError) (p : FieldError → Bool) :
    (if c then [e] else []).any p = (c && p e) := by
  cases c <;> simp

/-- Scanning a conditional singleton error block, Prop-condition form. -/
theorem any_ite_singleton (c : Prop) [Decidable c] (e : FieldError)
    (p : FieldError → Bool) :
    (if c then [e] else []).any p = (decide c && p e) := by
  by_cases h : c <;> simp [h]

/-- When some check failed, `validateBooking` answers with the full error
list. -/
theorem validateBooking_error (b : BookingBody)
    (h : validateBookingErrors b ≠ []) :
    validateBooking b = .error (validateBookingErrors b) := by
  unfold validateBooking
  simp [h]

/-- A field-tagged entry makes the error list nonempty. -/
theorem ne_nil_of_hasFieldError (b : BookingBody) (f : String)
    (h : hasFieldError b f = true) : validateBookingErrors b ≠ [] := by
  intro hnil
  rw [hasFieldError, hnil] at h
  simp at h

/-! ## Claim C2: error reporting of the validators -/

/-- C2 (counterexample): the contact endpoint does not report all
violations field-tagged.  The concrete input below is missing the
required `name` field AND has an email that fails the format check, yet
the 400 response is the single untagged missing-fields message: the
email violation is not reported, and no entry tagged with a field name
is present at all. -/
def c2ContactBody : ContactBody :=
  ⟨none, some "not-an-email", none, none, some "Hello", some "World",
   some "general"⟩

/-- Counterexample for C2 (see `c2ContactBody`). -/
theorem C2_counterexample_contact_single_error :
    emailRegexTest "not-an-email" = false
    ∧ createContactInquiry ⟨"CONTACT-2", 50⟩ c2ContactBody [] =
        (.badRequest "Missing required fields: name, email, subject, message, and department are required",
         [])
    ∧ contactRespFieldErrors
        (createContactInquiry ⟨"CONTACT-2", 50⟩ c2ContactBody []).1 = [] := by
  refine ⟨by decide, by decide, rfl⟩

/-- C2 (amended): the booking validator reports all violations found,
field-tagged — in particular each missing required field contributes an
entry with that field name, independently of the other checks.  The
contact endpoint instead short-circuits: whenever a required field is
missing it answers with one fixed untagged error message (so further
violations, such as a malformed email, are not reported). -/
theorem C2_all_violations_reported :
    (∀ b : BookingBody,
      (b.customerName = none → hasFieldError b "customerName" = true)
      ∧ (b.email = none → hasFieldError b "email" = true)
      ∧ (b.phone = none → hasFieldError b "phone" = true)
      ∧ (b.pickupDate = none → hasFieldError b "pickupDate" = true)
      ∧ (b.returnDate = none → hasFieldError b "returnDate" = true)
      ∧ (b.carType = none → hasFieldError b "carType" = true)
      ∧ (b.pickupLocation = none → hasFieldError b "pickupLocation" = true)
      ∧ (b.idNumber = none → hasFieldError b "idNumber" = true)
      ∧ (b.idType = none → hasFieldError b "idType" = true)
      ∧ (b.termsAccepted = .undef → hasFieldError b "termsAccepted" = true))
    ∧ (∀ (env : ContactEnv) (cb : ContactBody) (store : List ContactData),
        (!truthyStr cb.name || !truthyStr cb.email || !truthyStr cb.subject ||
          !truthyStr cb.message || !truthyStr cb.department) = true →
        createContactInquiry env cb store =
          (.badRequest "Missing required fields: name, email, subject, message, and department are required",
           store)) := by
  constructor
  · intro b
    refine ⟨?_, ?_, ?_, ?_, ?_, ?_, ?_, ?_, ?_, ?_⟩ <;>
      intro h <;>
      simp [hasFieldError, validateBookingErrors, List.any_append,
        any_if_singleton, h, trimmedPresent, truthyStr, truthyTerms,
        termsIsStr]
  · intro env cb store h
    simp [createContactInquiry, h]

/-- Booking body with every field missing, used by the C2 witness. -/
def c2EmptyBody : BookingBody :=
  ⟨none, none, none, none, none, none, none, none, none, none, none, .undef⟩

/-- Contact body missing only the subject, used by the C2 witness. -/
def c2NoSubjectBody : ContactBody :=
  ⟨some "Jane", some "jane@x.com", none, none, none, some "World",
   some "general"⟩

/-- Witness for C2: with every booking field missing, every required
field is simultaneously reported; and the contact endpoint answers the
fixed missing-fields message for a body missing its subject. -/
theorem C2_all_violations_reported_witness :
    (hasFieldError c2EmptyBody "customerName" = true
      ∧ hasFieldError c2EmptyBody "email" = true
      ∧ hasFieldError c2EmptyBody "phone" = true
      ∧ hasFieldError c2EmptyBody "pickupDate" = true
      ∧ hasFieldError c2EmptyBody "returnDate" = true
      ∧ hasFieldError c2EmptyBody "carType" = true
      ∧ hasFieldError c2EmptyBody "pickupLocation" = true
      ∧ hasFieldError c2EmptyBody "idNumber" = true
      ∧ hasFieldError c2EmptyBody "idType" = true
      ∧ hasFieldError c2EmptyBody "termsAccepted" = true)
    ∧ createContactInquiry ⟨"CONTACT-3", 60⟩ c2NoSubjectBody [] =
        (.badRequest "Missing required fields: name, email, subject, message, and department are required",
         []) := by
  have h := C2_all_violations_reported
  have hb := h.1 c2EmptyBody
  exact ⟨⟨hb.1 rfl, hb.2.1 rfl, hb.2.2.1 rfl, hb.2.2.2.1 rfl,
      hb.2.2.2.2.1 rfl, hb.2.2.2.2.2.1 rfl, hb.2.2.2.2.2.2.1 rfl,
      hb.2.2.2.2.2.2.2.1 rfl, hb.2.2.2.2.2.2.2.2.1 rfl,
      hb.2.2.2.2.2.2.2.2.2 rfl⟩,
    h.2 ⟨"CONTACT-3", 60⟩ c2NoSubjectBody [] (by decide)⟩

/-! ## Claim C4: identity-document kind validation -/

/-- Fully valid booking body except that the identity-document kind is
`national_id` — a member of the spec's recognized closed set. -/
def c4Body : BookingBody :=
  ⟨some "Jane Doe", some "jane@x.com", some "555", some "2025-01-10",
   some "2025-01-12", some "suv", some "Airport", none, none,
   some "P123", some "national_id", .ofStr "true"⟩

/-- Counterexample for C4: the recognized kind `national_id` is rejected
by the route validator with an `idType` field error (its accepted set is
only `['id', 'passport']`), so creation fails with a 400. -/
theorem C4_counterexample_national_id_rejected :
    hasFieldError c4Body "idType" = true
    ∧ validateBooking c4Body =
        .error [⟨"idType", "Valid ID type is required (id or passport)"⟩] := by
  exact ⟨by decide, rfl⟩

/-- C4 (amended): the validator accepts the identity-document kind
exactly when it is `id` or `passport`; every other value — including the
type-level recognized kind `national_id` — yields an `idType` field
error.  Separately, the controller's `normalizeIdType` never rejects:
any unrecognized kind is silently replaced by the fallback `id`. -/
theorem C4_idType_validation :
    (∀ b : BookingBody,
      hasFieldError b "idType" = true ↔
        ¬(b.idType = some "id" ∨ b.idType = some "passport"))
    ∧ (∀ s : String, s ≠ "id" → s ≠ "passport" → s ≠ "national_id" →
        s ≠ "national-id" → normalizeIdType s = .id) := by
  constructor
  · intro b
    have key : hasFieldError b "idType"
        = (!truthyStr b.idType ||
            !(["id", "passport"].contains (b.idType.getD ""))) := by
      simp [hasFieldError, validateBookingErrors, List.any_append,
        any_if_singleton, any_ite_singleton, List.contains, List.elem_eq_mem]
    rw [key]
    cases b.idType with
    | none => decide
    | some s =>
      by_cases h1 : s = "id"
      · subst h1; decide
      · by_cases h2 : s = "passport"
        · subst h2; decide
        · simp [truthyStr, List.contains, List.elem_eq_mem, h1, h2]
  · intro s h1 h2 h3 h4
    simp [normalizeIdType, h1, h2, h3, h4]

/-- Witness for C4: a missing kind is an error state, `passport` is
accepted, and the unrecognized kind `driver-card` is silently normalized
to `id`. -/
theorem C4_idType_validation_witness :
    (hasFieldError c2EmptyBody "idType" = true ↔
      ¬(c2EmptyBody.idType = some "id" ∨ c2EmptyBody.idType = some "passport"))
    ∧ normalizeIdType "driver-card" = .id :=
  ⟨C4_idType_validation.1 c2EmptyBody,
   C4_idType_validation.2 "driver-card" (by decide) (by decide) (by decide)
     (by decide)⟩

/-! ## Claim C7: return date not after pickup date -/

/-- C7: whenever both dates are present and the parsed return date
compares less-or-equal to the parsed pickup date (the JS comparison,
false on `NaN`), the validator reports a `returnDate` field error and
validation fails with the full error list. -/
theorem C7_return_not_after_pickup (b : BookingBody)
    (h1 : truthyStr b.pickupDate = true) (h2 : truthyStr b.returnDate = true)
    (h3 : jsLe (dateParse (b.returnDate.getD ""))
        (dateParse (b.pickupDate.getD "")) = true) :
    hasFieldError b "returnDate" = true
    ∧ validateBooking b = .error (validateBookingErrors b) := by
  have hf : hasFieldError b "returnDate" = true := by
    simp [hasFieldError, validateBookingErrors, List.any_append,
      any_if_singleton, h1, h2, h3]
  exact ⟨hf, validateBooking_error b (ne_nil_of_hasFieldError b _ hf)⟩

/-- Body with a return date two days before the pickup date. -/
def c7Body : BookingBody :=
  ⟨none, none, none, some "2025-01-12", some "2025-01-10", none, none,
   none, none, none, none, .undef⟩

/-- Witness for C7 at `c7Body`. -/
theorem C7_return_not_after_pickup_witness :
    hasFieldError c7Body "returnDate" = true
    ∧ validateBooking c7Body = .error (validateBookingErrors c7Body) :=
  C7_return_not_after_pickup c7Body (by decide) (by decide) (by decide)

/-! ## Claim C6: unaccepted terms reject the booking -/

/-- The two outcomes `validateBooking` can have. -/
theorem validateBooking_cases (b : BookingBody) :
    validateBooking b = .error (validateBookingErrors b)
    ∨ validateBooking b = .ok (normalizeBookingBody b) := by
  by_cases h : (validateBookingErrors b).isEmpty = true
  · exact .inr (by unfold validateBooking; simp [h])
  · exact .inl (by unfold validateBooking; simp [h])

/-- C6: whenever `termsAccepted` is not coercible to `true` (neither the
boolean `true` nor the literal string `'true'`, which is exactly
`coerceTerms = false`), the booking request answers 400 — from the
validator or from the controller — and the store is unchanged: no record
is created. -/
theorem C6_terms_not_accepted (env : BookingEnv) (b : BookingBody)
    (files : UploadedFiles) (store : List BookingData)
    (h : coerceTerms b.termsAccepted = false) :
    responded400 (handleBookingPost env b files store).1 = true
    ∧ (handleBookingPost env b files store).2 = store := by
  unfold handleBookingPost
  rcases validateBooking_cases b with hv | hv <;> rw [hv]
  · exact ⟨rfl, rfl⟩
  · have hterms : (normalizeBookingBody b).termsAccepted = .ofBool false := by
      simp [normalizeBookingBody, h]
    by_cases hm :
        (missingRequiredFields (normalizeBookingBody b)).isEmpty = true
    · simp [createBooking, hm, hterms, coerceTerms, responded400]
    · rw [Bool.not_eq_true] at hm
      simp [createBooking, hm, responded400]

/-- Body whose consent flag is the truthy — but not coercible — string
`'yes'`; it passes the validator's own terms check yet must still be
rejected by the controller. -/
def c6Body : BookingBody :=
  ⟨some "Jane Doe", some "jane@x.com", some "555", some "2025-01-10",
   some "2025-01-12", some "suv", some "Airport", none, none,
   some "P123", some "passport", .ofStr "yes"⟩

/-- Environment used by the booking witnesses. -/
def c6Env : BookingEnv := ⟨"12345678", "2025-01-05T00:00:00.000Z"⟩

/-- Witness for C6 at `c6Body` on a nonempty store. -/
theorem C6_terms_not_accepted_witness :
    responded400 (handleBookingPost c6Env c6Body ⟨none, none, none⟩ []).1 = true
    ∧ (handleBookingPost c6Env c6Body ⟨none, none, none⟩ []).2 = [] :=
  C6_terms_not_accepted c6Env c6Body ⟨none, none, none⟩ [] (by decide)

/-! ## Claim C5: the document packager (`createDocumentsZip`) -/

/-- External filesystem collaborator: which paths exist, and whether the
archive write (`zip.writeZip`) succeeds (an I/O failure there is caught
and turned into a `null` result). -/
structure FileSys where
  pathExists : String → Bool
  writeOk : Bool

/-- One candidate slot: `booking.xPath && fs.existsSync(booking.xPath)`
keeps the path only when it is truthy and the file exists. -/
def candidateFile (fs : FileSys) (o : Option String) : List String :=
  match o with
  | none => []
  | some p => if !strIsEmpty p && fs.pathExists p then [p] else []

/-- The `filesToZip` list built by `createDocumentsZip`, in source order:
identity document, driving license, deposit proof. -/
def filesToZip (fs : FileSys) (b : BookingData) : List String :=
  candidateFile fs b.idDocumentPath ++ candidateFile fs b.drivingLicensePath ++
    candidateFile fs b.depositProofPath

/-- The produced archive: its file name and its entry names. -/
structure ZipArchive where
  name : String
  entries : List String
deriving DecidableEq, Repr

/-- Function `createDocumentsZip` from `bookingController.ts`: `none` when no
candidate file exists, `none` when the archive write fails (the catch
branch), otherwise an archive named `{idNumber}_documents.zip` whose
entries are the existing files' base names. -/
def createDocumentsZip (fs : FileSys) (b : BookingData) : Option ZipArchive :=
  let files := filesToZip fs b
  if files.isEmpty then none
  else if !fs.writeOk then none
  else some { name := b.idNumber ++ "_documents.zip"
              entries := files.map pathBasename }

/-- C5: packaging zero existing files yields `none` (not an error); an
I/O failure during archive creation also yields `none`; otherwise the
archive is named `{idNumber}_documents.zip` and has exactly one entry —
the base name — per existing candidate file, while missing candidates
are silently skipped (every packaged path passed the existence check). -/
theorem C5_document_packager (fs : FileSys) (b : BookingData) :
    (filesToZip fs b = [] → createDocumentsZip fs b = none)
    ∧ (fs.writeOk = false → createDocumentsZip fs b = none)
    ∧ (filesToZip fs b ≠ [] → fs.writeOk = true →
        createDocumentsZip fs b =
          some ⟨b.idNumber ++ "_documents.zip",
                (filesToZip fs b).map pathBasename⟩
        ∧ ((filesToZip fs b).map pathBasename).length
            = (filesToZip fs b).length)
    ∧ (∀ p ∈ filesToZip fs b, fs.pathExists p = true) := by
  refine ⟨?_, ?_, ?_, ?_⟩
  · intro h
    simp [createDocumentsZip, h]
  · intro h
    unfold createDocumentsZip
    by_cases he : (filesToZip fs b).isEmpty = true <;> simp [he, h]
  · intro h hw
    have he : (filesToZip fs b).isEmpty = false := by
      simpa [List.isEmpty_iff] using h
    exact ⟨by simp [createDocumentsZip, he, hw], by simp⟩
  · intro p hp
    rcases List.mem_append.mp hp with hp' | hp'
    · rcases List.mem_append.mp hp' with hp'' | hp''
      · cases hopt : b.idDocumentPath <;> rw [hopt] at hp'' <;>
          simp only [candidateFile] at hp''
        · simp at hp''
        · split at hp''
          · rename_i hc
            simp at hp''
            subst hp''
            exact (Bool.and_eq_true _ _ |>.mp hc).2
          · simp at hp''
      · cases hopt : b.drivingLicensePath <;> rw [hopt] at hp'' <;>
          simp only [candidateFile] at hp''
        · simp at hp''
        · split at hp''
          · rename_i hc
            simp at hp''
            subst hp''
            exact (Bool.and_eq_true _ _ |>.mp hc).2
          · simp at hp''
    · cases hopt : b.depositProofPath <;> rw [hopt] at hp' <;>
        simp only [candidateFile] at hp'
      · simp at hp'
      · split at hp'
        · rename_i hc
          simp at hp'
          subst hp'
          exact (Bool.and_eq_true _ _ |>.mp hc).2
        · simp at hp'

/-- Booking record used by the C5 witness: two of the three candidate
paths are set; one of the set paths is missing on disk. -/
def c5Booking : BookingData :=
  { id := "V1-00000001", customerName := "Jane Doe", email := "jane@x.com"
    phone := "555", pickupDate := "2025-01-10", returnDate := "2025-01-12"
    carType := "suv", pickupLocation := "Airport", dropoffLocation := none
    additionalInfo := none, idNumber := "P123", idType := .passport
    termsAccepted := true, bookingDate := "2025-01-05T00:00:00.000Z"
    status := "confirmed"
    idDocumentPath := some "uploads/id-P123.png"
    drivingLicensePath := none
    depositProofPath := some "uploads/deposit-P123.pdf" }

/-- Filesystem of the C5 witness: only the identity document exists. -/
def c5Fs : FileSys :=
  ⟨fun p => p == "uploads/id-P123.png", true⟩

/-- Witness for C5: with one existing file, the packager produces the
`{idNumber}_documents.zip` archive holding exactly that file's base name,
and every packaged path exists. -/
theorem C5_document_packager_witness :
    createDocumentsZip c5Fs c5Booking =
      some ⟨"P123" ++ "_documents.zip",
            (filesToZip c5Fs c5Booking).map pathBasename⟩
    ∧ ((filesToZip c5Fs c5Booking).map pathBasename).length
        = (filesToZip c5Fs c5Booking).length
    ∧ c5Fs.pathExists "uploads/id-P123.png" = true :=
  ⟨((C5_document_packager c5Fs c5Booking).2.2.1 (by decide) rfl).1,
   ((C5_document_packager c5Fs c5Booking).2.2.1 (by decide) rfl).2,
   (C5_document_packager c5Fs c5Booking).2.2.2 "uploads/id-P123.png"
     (by decide)⟩

/-! ## Claim C3: the notification joins -/

/-- Settled outcome of one dispatched send (a JS promise): fulfilled with
a value or rejected with a reason. -/
inductive POutcome (α : Type) where
  | fulfilled (val : α)
  | rejected (reason : String)
deriving DecidableEq, Repr

/-- Model of `Promise.allSettled` on a pair of already-dispatched promises:
collects both outcomes, independently. -/
def promiseAllSettledPair (a : POutcome α) (b : POutcome β) :
    POutcome α × POutcome β :=
  (a, b)

/-- Model of `Promise.all` on a pair of already-dispatched promises: fulfills only
when both fulfill; otherwise rejects with a (first) rejection reason, and
the other outcome is discarded. -/
def promiseAllPair : POutcome α → POutcome β → POutcome (α × β)
  | .fulfilled a, .fulfilled b => .fulfilled (a, b)
  | .rejected e, _ => .rejected e
  | _, .rejected e => .rejected e

/-- The join used by `createContactInquiry` (and `resendInquiryEmails`):
`Promise.allSettled([sendAcknowledgementEmail, sendInternalNotificationEmail])`. -/
def contactNotificationJoin (ack internal : POutcome Unit) :
    POutcome Unit × POutcome Unit :=
  promiseAllSettledPair ack internal

/-- The join used by `createBooking`'s deferred email phase:
`Promise.all([sendAdminNotification, sendCustomerConfirmation])`. -/
def bookingNotificationJoin (admin customer : POutcome Unit) :
    POutcome (Unit × Unit) :=
  promiseAllPair admin customer

/-- Whether a promise outcome is a fulfillment. -/
def isFulfilledOutcome : POutcome α → Bool
  | .fulfilled _ => true
  | .rejected _ => false

/-- Counterexample for C3: the booking notification phase joins with
`Promise.all`, a short-circuit-on-first-rejection join — once the admin
send rejects, the customer send's outcome is discarded (the two listed
situations are indistinguishable), whereas the contact join
(`Promise.allSettled`) distinguishes them. -/
theorem C3_counterexample_booking_join_short_circuits :
    bookingNotificationJoin (.rejected "admin send failed") (.fulfilled ())
      = bookingNotificationJoin (.rejected "admin send failed")
          (.rejected "customer send failed")
    ∧ contactNotificationJoin (.rejected "admin send failed") (.fulfilled ())
      ≠ contactNotificationJoin (.rejected "admin send failed")
          (.rejected "customer send failed") := by
  exact ⟨rfl, by decide⟩

/-- C3 (amended): contact-inquiry notifications are joined with
`Promise.allSettled`, which collects both outcomes independently.
Booking notifications are both dispatched before the join (so one
failure does not prevent the other's dispatch), but are joined with
`Promise.all`: the aggregate fulfills exactly when both sends fulfill,
and on a rejection of the admin send the aggregate rejects with that
reason, discarding the customer outcome. -/
theorem C3_notification_joins (a b : POutcome Unit) :
    contactNotificationJoin a b = (a, b)
    ∧ (∀ e, a = .rejected e → bookingNotificationJoin a b = .rejected e)
    ∧ isFulfilledOutcome (bookingNotificationJoin a b)
        = (isFulfilledOutcome a && isFulfilledOutcome b) := by
  refine ⟨rfl, ?_, ?_⟩
  · intro e he
    subst he
    cases b <;> rfl
  · cases a <;> cases b <;> rfl

/-- Witness for C3 at concrete outcomes. -/
theorem C3_notification_joins_witness :
    bookingNotificationJoin (.rejected "smtp timeout") (.fulfilled ())
      = .rejected "smtp timeout" :=
  (C3_notification_joins (.rejected "smtp timeout") (.fulfilled ())).2.1
    "smtp timeout" rfl

/-! ## Claim C8: inquiry listing (`getContactInquiries`) -/

/-- Query-filter match of one inquiry: each given (truthy) filter must
equal the corresponding field; an absent filter matches everything. -/
def matchesFilters (dep st pr : Option String) (i : ContactData) : Bool :=
  (!truthyStr dep || i.department == dep.getD "")
  && (!truthyStr st || i.status == st.getD "")
  && (!truthyStr pr || priorityStr i.priority == pr.getD "")

/-- The sort order of `getContactInquiries`: `a` sorts before-or-equal
`b` exactly when the JS comparator (priority-rank difference, then date
difference newest-first) is `≤ 0` on `(a, b)`. -/
def inquiryLE (a b : ContactData) : Bool :=
  decide (priorityRank a.priority < priorityRank b.priority)
  || (decide (priorityRank a.priority = priorityRank b.priority)
      && decide (b.submissionDate ≤ a.submissionDate))

/-- JS `array.slice(0, n)` for an already-parsed numeric `n` (a negative
`n` counts from the end). -/
def jsSliceTo (l : List α) (n : Int) : List α :=
  if n < 0 then l.take (l.length - n.natAbs) else l.take n.toNat

/-- Function `getContactInquiries` from `contactController.ts`: filter by the
given department/status/priority, sort with the two-key comparator using
the runtime's stable sort (modelled by `mergeSort`), then apply the
`limit` query parameter (when it parses to a number) after sorting. -/
def getContactInquiries (dep st pr : Option String) (lim : Option Int)
    (store : List ContactData) : List ContactData :=
  let filtered := store.filter (matchesFilters dep st pr)
  let sorted := filtered.mergeSort inquiryLE
  match lim with
  | some n => jsSliceTo sorted n
  | none => sorted

/-- Transitivity of the listing order. -/
theorem inquiryLE_trans (a b c : ContactData) (hab : inquiryLE a b = true)
    (hbc : inquiryLE b c = true) : inquiryLE a c = true := by
  simp only [inquiryLE, Bool.or_eq_true, Bool.and_eq_true,
    decide_eq_true_eq] at *
  omega

/-- Totality of the listing order. -/
theorem inquiryLE_total (a b : ContactData) :
    (inquiryLE a b || inquiryLE b a) = true := by
  simp only [inquiryLE, Bool.or_eq_true, Bool.and_eq_true,
    decide_eq_true_eq]
  omega

/-- C8: the un-limited listing holds exactly the inquiries matching all
given filters (it is a permutation of the filtered store, with matching
as membership criterion), it is sorted by the two-key order (priority
rank, then descending submission time), the sort is stable (a pair of
tied records keeps its filtered-store order), and a `limit` is a slice
of the sorted, un-limited listing — applied after sorting. -/
theorem C8_inquiry_listing (dep st pr : Option String)
    (store : List ContactData) :
    (getContactInquiries dep st pr none store).Perm
        (store.filter (matchesFilters dep st pr))
    ∧ (∀ i : ContactData,
        i ∈ getContactInquiries dep st pr none store ↔
          i ∈ store ∧ matchesFilters dep st pr i = true)
    ∧ List.Pairwise (fun a b => inquiryLE a b = true)
        (getContactInquiries dep st pr none store)
    ∧ (∀ x y : ContactData, inquiryLE x y = true → inquiryLE y x = true →
        List.Sublist [x, y] (store.filter (matchesFilters dep st pr)) →
        List.Sublist [x, y] (getContactInquiries dep st pr none store))
    ∧ (∀ n : Int, getContactInquiries dep st pr (some n) store
        = jsSliceTo (getContactInquiries dep st pr none store) n) := by
  have hperm : (getContactInquiries dep st pr none store).Perm
      (store.filter (matchesFilters dep st pr)) :=
    List.mergeSort_perm _ _
  refine ⟨hperm, ?_, ?_, ?_, ?_⟩
  · intro i
    rw [hperm.mem_iff, List.mem_filter]
  · exact List.sorted_mergeSort (fun a b c => inquiryLE_trans a b c)
      inquiryLE_total _
  · intro x y hxy hyx hsub
    exact List.sublist_mergeSort (fun a b c => inquiryLE_trans a b c)
      inquiryLE_total (by simp [List.pairwise_cons, hxy]) hsub
  · intro n
    rfl

/-- Three stored inquiries for the C8 witness: an urgent one and two
tied normal ones (same priority, same submission time). -/
def c8InqA : ContactData :=
  ⟨"CONTACT-A", "Ann", "ann@x.com", "", "", "hello", "first", "general",
   10, "new", .normal, "executive-team"⟩

/-- Second tied inquiry of the C8 witness store. -/
def c8InqB : ContactData :=
  ⟨"CONTACT-B", "Bob", "bob@x.com", "", "", "hello", "second", "general",
   10, "new", .normal, "executive-team"⟩

/-- Urgent inquiry of the C8 witness store. -/
def c8InqC : ContactData :=
  ⟨"CONTACT-C", "Cal", "cal@x.com", "", "", "help", "third", "support",
   5, "new", .urgent, "concierge-team"⟩

/-- The C8 witness store, in submission order. -/
def c8Store : List ContactData := [c8InqA, c8InqB, c8InqC]

/-- Witness for C8: the two tied `normal` inquiries keep their store
order in the unfiltered listing. -/
theorem C8_inquiry_listing_witness :
    List.Sublist [c8InqA, c8InqB]
      (getContactInquiries none none none none c8Store) :=
  (C8_inquiry_listing none none none c8Store).2.2.2.1 c8InqA c8InqB
    (by decide) (by decide) (by decide)

/-! ## Claim C9: status update (`updateInquiryStatus`) -/

/-- The `validStatuses` list of `updateInquiryStatus`. -/
def validStatuses : List String := ["new", "in-progress", "resolved", "archived"]

/-- The two conditional assignments
`if (status) inquiry.status = status; if (assignedTo) inquiry.assignedTo = assignedTo`
applied to the found inquiry. -/
def applyInquiryUpdate (status assignedTo : Option String)
    (inq : ContactData) : ContactData :=
  let inq1 := if truthyStr status then { inq with status := status.getD "" }
              else inq
  if truthyStr assignedTo then { inq1 with assignedTo := assignedTo.getD "" }
  else inq1

/-- Replace the first element satisfying `p` (the object JS `find`
returned, mutated in place) and keep everything else. -/
def updateFirst (p : α → Bool) (f : α → α) : List α → List α
  | [] => []
  | x :: xs => if p x then f x :: xs else x :: updateFirst p f xs

/-- Shape of the HTTP response of `updateInquiryStatus`: 404, 400 for an
unrecognized status value, or 200 carrying the updated inquiry's
`id`/`status`/`assignedTo`. -/
inductive UpdateResp where
  | notFound
  | badStatus
  | updated (inq : ContactData)
deriving DecidableEq, Repr

/-- Function `updateInquiryStatus` from `contactController.ts`: find by id (404
when absent), reject an unrecognized truthy status value with a 400
before mutating, else mutate the found record's `status`/`assignedTo`
fields in place. -/
def updateInquiryStatus (id : String) (status assignedTo : Option String)
    (store : List ContactData) : UpdateResp × List ContactData :=
  match store.find? (fun i => i.id == id) with
  | none => (.notFound, store)
  | some inq =>
      if truthyStr status && !(validStatuses.contains (status.getD "")) then
        (.badStatus, store)
      else
        (.updated (applyInquiryUpdate status assignedTo inq),
         updateFirst (fun i => i.id == id)
           (applyInquiryUpdate status assignedTo) store)

/-- A successful `find?` splits the list at the first match, and
`updateFirst` rewrites exactly that position. -/
theorem find?_updateFirst (p : α → Bool) (f : α → α) :
    ∀ (l : List α) (x : α), l.find? p = some x →
      ∃ l₁ l₂, l = l₁ ++ x :: l₂ ∧ (∀ y ∈ l₁, p y = false)
        ∧ updateFirst p f l = l₁ ++ f x :: l₂ := by
  intro l
  induction l with
  | nil => intro x h; simp at h
  | cons a t ih =>
    intro x h
    by_cases hp : p a = true
    · rw [List.find?_cons_of_pos _ hp] at h
      cases h
      exact ⟨[], t, rfl, by simp, by simp [updateFirst, hp]⟩
    · rw [List.find?_cons_of_neg _ hp] at h
      obtain ⟨l₁, l₂, hsplit, hnone, hupd⟩ := ih x h
      refine ⟨a :: l₁, l₂, by simp [hsplit], ?_, ?_⟩
      · intro y hy
        rcases List.mem_cons.mp hy with rfl | hy'
        · exact Bool.not_eq_true _ |>.mp hp
        · exact hnone y hy'
      · simp [updateFirst, hp, hupd]

/-- Lemma: `applyInquiryUpdate` only touches `status` and `assignedTo`: all
other fields of the record are unchanged. -/
theorem applyInquiryUpdate_frame (status assignedTo : Option String)
    (inq : ContactData) :
    (applyInquiryUpdate status assignedTo inq).id = inq.id
    ∧ (applyInquiryUpdate status assignedTo inq).name = inq.name
    ∧ (applyInquiryUpdate status assignedTo inq).email = inq.email
    ∧ (applyInquiryUpdate status assignedTo inq).phone = inq.phone
    ∧ (applyInquiryUpdate status assignedTo inq).company = inq.company
    ∧ (applyInquiryUpdate status assignedTo inq).subject = inq.subject
    ∧ (applyInquiryUpdate status assignedTo inq).message = inq.message
    ∧ (applyInquiryUpdate status assignedTo inq).department = inq.department
    ∧ (applyInquiryUpdate status assignedTo inq).submissionDate
        = inq.submissionDate
    ∧ (applyInquiryUpdate status assignedTo inq).priority = inq.priority := by
  unfold applyInquiryUpdate
  by_cases h1 : truthyStr status = true <;>
    by_cases h2 : truthyStr assignedTo = true <;>
    simp [h1, h2]

/-- C9: with an unknown id the endpoint answers 404 and the store is
untouched; with a truthy unrecognized status it answers 400 and the
store is untouched; otherwise it answers 200 with the updated record,
and the new store differs from the old only at the first id match, whose
record changes at most in `status` and `assignedTo` — every other field
and every other stored record is unchanged. -/
theorem C9_update_inquiry_frame (id : String)
    (status assignedTo : Option String) (store : List ContactData) :
    (store.find? (fun i => i.id == id) = none →
      updateInquiryStatus id status assignedTo store = (.notFound, store))
    ∧ (∀ inq, store.find? (fun i => i.id == id) = some inq →
        truthyStr status = true →
        validStatuses.contains (status.getD "") = false →
        updateInquiryStatus id status assignedTo store = (.badStatus, store))
    ∧ (∀ inq, store.find? (fun i => i.id == id) = some inq →
        (truthyStr status = true →
          validStatuses.contains (status.getD "") = true) →
        ∃ l₁ l₂,
          store = l₁ ++ inq :: l₂
          ∧ (∀ y ∈ l₁, (y.id == id) = false)
          ∧ updateInquiryStatus id status assignedTo store =
              (.updated (applyInquiryUpdate status assignedTo inq),
               l₁ ++ applyInquiryUpdate status assignedTo inq :: l₂)
          ∧ (applyInquiryUpdate status assignedTo inq).id = inq.id
          ∧ (applyInquiryUpdate status assignedTo inq).name = inq.name
          ∧ (applyInquiryUpdate status assignedTo inq).email = inq.email
          ∧ (applyInquiryUpdate status assignedTo inq).phone = inq.phone
          ∧ (applyInquiryUpdate status assignedTo inq).company = inq.company
          ∧ (applyInquiryUpdate status assignedTo inq).subject = inq.subject
          ∧ (applyInquiryUpdate status assignedTo inq).message = inq.message
          ∧ (applyInquiryUpdate status assignedTo inq).department
              = inq.department
          ∧ (applyInquiryUpdate status assignedTo inq).submissionDate
              = inq.submissionDate
          ∧ (applyInquiryUpdate status assignedTo inq).priority
              = inq.priority) := by
  refine ⟨?_, ?_, ?_⟩
  · intro h
    unfold updateInquiryStatus
    rw [h]
  · intro inq h ht hc
    have hc' : status.getD "" ∉ validStatuses := by
      simpa [List.contains, List.elem_eq_mem] using hc
    unfold updateInquiryStatus
    rw [h]
    simp [ht, hc']
  · intro inq h hvalid
    have hcond : (truthyStr status
        && !(validStatuses.contains (status.getD ""))) = false := by
      cases hts : truthyStr status
      · rfl
      · have hmem := hvalid hts
        simp only [List.contains, List.elem_eq_mem] at hmem
        simp [hmem]
    obtain ⟨l₁, l₂, hsplit, hnone, hupd⟩ :=
      find?_updateFirst (fun i => i.id == id)
        (applyInquiryUpdate status assignedTo) store inq h
    refine ⟨l₁, l₂, hsplit, hnone, ?_,
      applyInquiryUpdate_frame status assignedTo inq⟩
    unfold updateInquiryStatus
    rw [h]
    simp [hcond, hupd]
    intro hts
    have hmem := hvalid hts
    simpa [List.contains, List.elem_eq_mem] using hmem

/-- Second inquiry of the C9 witness store. -/
def c9InqB : ContactData :=
  ⟨"CONTACT-B2", "Bob", "bob@x.com", "", "", "hi", "second", "booking",
   20, "new", .normal, "reservations-team"⟩

/-- The C9 witness store. -/
def c9Store : List ContactData := [c8InqA, c9InqB]

/-- Witness for C9: an unknown id is a 404 leaving the store unchanged;
a bogus status value is a 400 leaving the store unchanged; a valid
status update splits the store at the one matching record. -/
theorem C9_update_inquiry_frame_witness :
    updateInquiryStatus "missing-id" (some "resolved") none c9Store
      = (.notFound, c9Store)
    ∧ updateInquiryStatus "CONTACT-B2" (some "bogus") none c9Store
      = (.badStatus, c9Store)
    ∧ ∃ l₁ l₂,
        c9Store = l₁ ++ c9InqB :: l₂
        ∧ (∀ y ∈ l₁, (y.id == "CONTACT-B2") = false)
        ∧ updateInquiryStatus "CONTACT-B2" (some "resolved") none c9Store =
            (.updated (applyInquiryUpdate (some "resolved") none c9InqB),
             l₁ ++ applyInquiryUpdate (some "resolved") none c9InqB :: l₂)
        ∧ (applyInquiryUpdate (some "resolved") none c9InqB).id = c9InqB.id
        ∧ (applyInquiryUpdate (some "resolved") none c9InqB).name = c9InqB.name
        ∧ (applyInquiryUpdate (some "resolved") none c9InqB).email
            = c9InqB.email
        ∧ (applyInquiryUpdate (some "resolved") none c9InqB).phone
            = c9InqB.phone
        ∧ (applyInquiryUpdate (some "resolved") none c9InqB).company
            = c9InqB.company
        ∧ (applyInquiryUpdate (some "resolved") none c9InqB).subject
            = c9InqB.subject
        ∧ (applyInquiryUpdate (some "resolved") none c9InqB).message
            = c9InqB.message
        ∧ (applyInquiryUpdate (some "resolved") none c9InqB).department
            = c9InqB.department
        ∧ (applyInquiryUpdate (some "resolved") none c9InqB).submissionDate
            = c9InqB.submissionDate
        ∧ (applyInquiryUpdate (some "resolved") none c9InqB).priority
            = c9InqB.priority :=
  ⟨(C9_update_inquiry_frame "missing-id" (some "resolved") none c9Store).1
     (by decide),
   (C9_update_inquiry_frame "CONTACT-B2" (some "bogus") none c9Store).2.1
     c9InqB (by decide) (by decide) (by decide),
   (C9_update_inquiry_frame "CONTACT-B2" (some "resolved") none c9Store).2.2
     c9InqB (by decide) (fun _ => by decide)⟩

end VisionOne
